import Mathlib

/-!
Shallow embedding of the DailyBot CLI core (credential resolution,
dual-authentication header construction, response classification, and the
persisted-settings merge), translated from `dailybot_cli/config.py`,
`dailybot_cli/api_client.py`, `dailybot_cli/commands/config.py` and
`dailybot_cli/commands/auth.py`.

Modelling conventions:
- Python values parsed from JSON are `JVal`; Python `None` is `JVal.jnull`.
- Python truthiness is `pyTruthy` (for parsed values) / `strTruthy`
  (for optional strings such as environment variables).
- A call to Python `json.loads` on file contents is external library code;
  a file's content is therefore modelled as `FileData`: missing file,
  text that does not parse, or the parsed value.
- Functions that can raise an uncaught Python exception return `PyResult`.
- Python `str()` / `repr()` of parsed JSON values is `pyStrTop` / `pyRepr`
  (string escaping inside `repr` is not modelled; no theorem depends on it).
-/

namespace DailyBot

/-- A value as returned by Python `json.loads`; `jnull` doubles as Python `None`. -/
inductive JVal where
  | jnull
  | jbool (b : Bool)
  | jnum (n : Int)
  | jstr (s : String)
  | jarr (elems : List JVal)
  | jobj (fields : List (String × JVal))
deriving Repr

/-- Python truthiness of a parsed value (`bool(x)`). -/
def pyTruthy : JVal → Bool
  | .jnull => false
  | .jbool b => b
  | .jnum n => n != 0
  | .jstr s => s != ""
  | .jarr elems => !elems.isEmpty
  | .jobj fields => !fields.isEmpty

/-- Python truthiness of an optional string (e.g. `os.environ.get` result). -/
def strTruthy : Option String → Bool
  | some s => s != ""
  | none => false

/-- Python truthiness of an optional parsed value (`None` or a value). -/
def optTruthy : Option JVal → Bool
  | some v => pyTruthy v
  | none => false

/-- Python `dict.get(k)` on a mapping: the value bound to the first
occurrence of the key (keys of a Python dict are unique). -/
def dictGet (fields : List (String × JVal)) (k : String) : Option JVal :=
  (fields.find? (fun p => p.1 == k)).map (fun p => p.2)

/-- `d.get(k)` when the receiver may be any parsed value; only mappings
have the attribute. -/
def jget (v : JVal) (k : String) : Option JVal :=
  match v with
  | .jobj fields => dictGet fields k
  | _ => none

mutual

/-- Python `repr()` of a parsed JSON value (string escaping not modelled). -/
def pyRepr : JVal → String
  | .jnull => "None"
  | .jbool true => "True"
  | .jbool false => "False"
  | .jnum n => toString n
  | .jstr s => "\x27" ++ s ++ "\x27"
  | .jarr elems => "[" ++ pyReprElems elems ++ "]"
  | .jobj fields => "\x7b" ++ pyReprFields fields ++ "\x7d"

/-- Comma-separated `repr`s of list elements. -/
def pyReprElems : List JVal → String
  | [] => ""
  | [v] => pyRepr v
  | v :: rest => pyRepr v ++ ", " ++ pyReprElems rest

/-- Comma-separated `repr`s of dict entries. -/
def pyReprFields : List (String × JVal) → String
  | [] => ""
  | [(k, v)] => "\x27" ++ k ++ "\x27: " ++ pyRepr v
  | (k, v) :: rest => "\x27" ++ k ++ "\x27: " ++ pyRepr v ++ ", " ++ pyReprFields rest

end

/-- Python `str()` of a parsed JSON value: the string itself for strings,
`repr` otherwise. -/
def pyStrTop : JVal → String
  | .jstr s => s
  | v => pyRepr v

/-- Python `s.rstrip("/")`: drop every trailing slash. -/
def rstripSlash (s : String) : String :=
  String.mk ((s.toList.reverse.dropWhile (fun c => c == '/')).reverse)

/-- Content of a persisted file as seen through `json.loads`: absent file,
text that fails to parse, or the parsed value. -/
inductive FileData where
  | missing
  | unparseable
  | parsed (v : JVal)
deriving Repr

/-- Outcome of running a piece of Python code: a value, or an uncaught
exception (named by its Python class). -/
inductive PyResult (α : Type) where
  | ok (val : α)
  | raises (exnClass : String)
deriving Repr

/-- Process-wide configuration sources read by `dailybot_cli/config.py`:
the `_api_url_override` global, the three environment variables, and the
two persisted files. -/
structure ConfigState where
  apiUrlOverride : Option String
  envApiUrl : Option String
  envToken : Option String
  envApiKey : Option String
  credentialsFile : FileData
  configFile : FileData
deriving Repr

/-- `DEFAULT_API_URL` from `config.py`. -/
def DEFAULT_API_URL : String := "https://api.dailybot.com"

/-- `set_api_url_override(url)`: store `url.rstrip("/")` in the global. -/
def set_api_url_override (cfg : ConfigState) (url : String) : ConfigState :=
  { cfg with apiUrlOverride := some (rstripSlash url) }

/-- `load_credentials()`: `None` for a missing file or a `json.JSONDecodeError`;
for a parsed mapping, the mapping when its `token` entry is truthy, else `None`.
A parseable non-mapping reaches `data.get("token")`, which raises
`AttributeError` — only `JSONDecodeError` and `KeyError` are caught. -/
def load_credentials : FileData → PyResult (Option JVal)
  | .missing => .ok none
  | .unparseable => .ok none
  | .parsed (.jobj fields) =>
      match dictGet fields "token" with
      | some v => if pyTruthy v then .ok (some (.jobj fields)) else .ok none
      | none => .ok none
  | .parsed _ => .raises "AttributeError"

/-- `clear_credentials()`: remove the credentials file if it exists. -/
def clear_credentials (cfg : ConfigState) : ConfigState :=
  { cfg with credentialsFile := .missing }

/-- `get_api_url()`: override if truthy, else env var (rstripped), else the
credentials record's truthy `api_url` (stringified and rstripped), else the
hardcoded default. -/
def get_api_url (cfg : ConfigState) : PyResult String :=
  if strTruthy cfg.apiUrlOverride then .ok (cfg.apiUrlOverride.getD "")
  else if strTruthy cfg.envApiUrl then .ok (rstripSlash (cfg.envApiUrl.getD ""))
  else
    match load_credentials cfg.credentialsFile with
    | .raises e => .raises e
    | .ok (some creds) =>
        match jget creds "api_url" with
        | some u =>
            if pyTruthy creds && pyTruthy u then .ok (rstripSlash (pyStrTop u))
            else .ok DEFAULT_API_URL
        | none => .ok DEFAULT_API_URL
    | .ok none => .ok DEFAULT_API_URL

/-- `get_token()`: the env var if truthy, else the loaded credentials'
`token` entry, else `None`. -/
def get_token (cfg : ConfigState) : PyResult (Option JVal) :=
  if strTruthy cfg.envToken then .ok (cfg.envToken.map .jstr)
  else
    match load_credentials cfg.credentialsFile with
    | .raises e => .raises e
    | .ok (some creds) => if pyTruthy creds then .ok (jget creds "token") else .ok none
    | .ok none => .ok none

/-- `load_config()`: `{}` for a missing file or a parse error; otherwise the
parsed value is returned as-is (even when it is not a mapping). -/
def load_config : FileData → JVal
  | .missing => .jobj []
  | .unparseable => .jobj []
  | .parsed v => v

/-- `get_api_key()`: the env var if truthy, else `config.get("api_key") or None`
on the loaded settings; `.get` on a non-mapping raises `AttributeError`. -/
def get_api_key (cfg : ConfigState) : PyResult (Option JVal) :=
  if strTruthy cfg.envApiKey then .ok (cfg.envApiKey.map .jstr)
  else
    match load_config cfg.configFile with
    | .jobj fields =>
        match dictGet fields "api_key" with
        | some v => if pyTruthy v then .ok (some v) else .ok none
        | none => .ok none
    | _ => .raises "AttributeError"

/-- Python `dict.pop(k, None)` on a mapping with unique keys. -/
def dictPop (m : List (String × JVal)) (k : String) : List (String × JVal) :=
  m.filter (fun p => p.1 != k)

/-- Python `m[k] = v` on a mapping with unique keys: update the existing
binding in place (keeping its position), else append the new binding at
the end. -/
def dictSet : List (String × JVal) → String → JVal → List (String × JVal)
  | [], k, v => [(k, v)]
  | p :: m, k, v => if p.1 == k then (k, v) :: m else p :: dictSet m k v

/-- `save_config(data)`: merge `data` into the existing mapping — entries
whose value is `None` are removed, every other entry is set. The merged
mapping is what gets written back. -/
def save_config (data : List (String × JVal)) (existing : List (String × JVal)) :
    List (String × JVal) :=
  data.foldl
    (fun acc kv =>
      match kv.2 with
      | .jnull => dictPop acc kv.1
      | v => dictSet acc kv.1 v)
    existing

/-- Mapping lookup (value of the first binding of the key, if any). -/
def lookup (m : List (String × JVal)) (k : String) : Option JVal :=
  (m.find? (fun p => p.1 == k)).map (fun p => p.2)

/-! ### The session client (`dailybot_cli/api_client.py`) -/

/-- `DailyBotClient` instance state: the frozen resolved configuration plus
the mutable `_agent_auth_mode` field. Timeouts are exact decimals, kept
as rationals. -/
structure DailyBotClient where
  api_url : String
  token : Option JVal
  api_key : Option JVal
  timeout : ℚ
  _agent_auth_mode : Option String
deriving Repr

/-- `DailyBotClient.__init__`: each constructor argument is kept when
truthy, else resolved from configuration (`x or get_x()`); the base URL is
rstripped; `_agent_auth_mode` starts out as `None`. An exception raised by
a resolver propagates. -/
def DailyBotClient.init (cfg : ConfigState)
    (api_url token api_key : Option String) (timeout : ℚ) :
    PyResult DailyBotClient :=
  match (if strTruthy api_url then .ok (api_url.getD "") else get_api_url cfg) with
  | .raises e => .raises e
  | .ok u =>
    match (if strTruthy token then .ok (token.map .jstr) else get_token cfg) with
    | .raises e => .raises e
    | .ok tok =>
      match (if strTruthy api_key then .ok (api_key.map .jstr) else get_api_key cfg) with
      | .raises e => .raises e
      | .ok key =>
          .ok { api_url := rstripSlash u, token := tok, api_key := key,
                timeout := timeout, _agent_auth_mode := none }

/-- The two headers every request carries. -/
def baseHeaders : List (String × String) :=
  [("Content-Type", "application/json"), ("Accept", "application/json")]

/-- `DailyBotClient._headers(authenticated)`: base headers, plus a bearer
authorization header when authenticated and the token is truthy. Does not
touch `_agent_auth_mode`. -/
def DailyBotClient._headers (c : DailyBotClient) (authenticated : Bool) :
    List (String × String) :=
  if authenticated && optTruthy c.token then
    baseHeaders ++ [("Authorization", "Bearer " ++ pyStrTop (c.token.getD .jnull))]
  else baseHeaders

/-- `DailyBotClient._agent_headers()`: base headers plus an `X-API-KEY`
header when the API key is truthy (recording mode `api_key`), else a bearer
authorization header when the token is truthy (recording mode `bearer`),
else neither (recording `None`). Returns the headers and the updated
instance. -/
def DailyBotClient._agent_headers (c : DailyBotClient) :
    List (String × String) × DailyBotClient :=
  if optTruthy c.api_key then
    (baseHeaders ++ [("X-API-KEY", pyStrTop (c.api_key.getD .jnull))],
     { c with _agent_auth_mode := some "api_key" })
  else if optTruthy c.token then
    (baseHeaders ++ [("Authorization", "Bearer " ++ pyStrTop (c.token.getD .jnull))],
     { c with _agent_auth_mode := some "bearer" })
  else
    (baseHeaders, { c with _agent_auth_mode := none })

/-- The fixed re-authentication instruction substituted on an expired
bearer session. -/
def SESSION_EXPIRED_MSG : String :=
  "Session expired. Run \x27dailybot login\x27 to re-authenticate."

/-- An HTTP response as the client observes it: the status code, the result
of `response.json()` (`none` when it raises), and `response.text`. -/
structure HResponse where
  status_code : Nat
  jsonBody : Option JVal
  text : String
deriving Repr

/-- Outcome of `_handle_response`: the parsed payload, a raised
`APIError(status_code, detail)`, or a raised JSON decode error from
parsing a success body. -/
inductive HandleResult where
  | ok (payload : JVal)
  | apiError (status_code : Nat) (detail : JVal)
  | jsonDecodeError (status_code : Nat)
deriving Repr

/-- The `detail` computed by the `try` block of `_handle_response`:
for a parsed mapping, `body.get("detail", body.get("error", str(body)))`;
any other body (parse failure, or `.get` raising on a non-mapping) falls
back to `response.text or "HTTP <code>"`. -/
def errorDetail (r : HResponse) : JVal :=
  match r.jsonBody with
  | some (.jobj fields) =>
      match dictGet fields "detail" with
      | some d => d
      | none =>
          match dictGet fields "error" with
          | some e => e
          | none => .jstr (pyRepr (.jobj fields))
  | _ => .jstr (if r.text == "" then "HTTP " ++ toString r.status_code else r.text)

/-- `DailyBotClient._handle_response`: status ≥ 400 raises `APIError` with
the resolved detail, overridden by the fixed re-authentication message when
the status is 401/403 and the recorded agent auth mode is `bearer`;
status 204 yields `{}` without parsing; any other status parses the body. -/
def DailyBotClient._handle_response (c : DailyBotClient) (r : HResponse) :
    HandleResult :=
  if r.status_code ≥ 400 then
    if (r.status_code = 401 ∨ r.status_code = 403)
        ∧ c._agent_auth_mode = some "bearer" then
      .apiError r.status_code (.jstr SESSION_EXPIRED_MSG)
    else .apiError r.status_code (errorDetail r)
  else if r.status_code = 204 then .ok (.jobj [])
  else
    match r.jsonBody with
    | some v => .ok v
    | none => .jsonDecodeError r.status_code

/-- The response handling of `get_agent_messages`: statuses ≥ 400 go
through `_handle_response`; any success status has its body parsed
directly by `response.json()` — including 204. -/
def DailyBotClient.get_agent_messages_response (c : DailyBotClient)
    (r : HResponse) : HandleResult :=
  if r.status_code ≥ 400 then c._handle_response r
  else
    match r.jsonBody with
    | some v => .ok v
    | none => .jsonDecodeError r.status_code

/-- A session-authenticated endpoint call (`auth_status`, `logout`,
`submit_update`, `get_status`): builds `_headers()` (which never writes
`_agent_auth_mode`) and classifies the response. -/
def DailyBotClient.sessionCall (c : DailyBotClient) (r : HResponse) :
    HandleResult × DailyBotClient :=
  let _ := c._headers true
  (c._handle_response r, c)

/-- An agent-authenticated endpoint call (`submit_agent_report`,
`submit_agent_health`, ...): builds `_agent_headers()` (recording the auth
mode on the instance) and classifies the response with the updated mode. -/
def DailyBotClient.agentCall (c : DailyBotClient) (r : HResponse) :
    HandleResult × DailyBotClient :=
  let hc := c._agent_headers
  (hc.2._handle_response r, hc.2)

/-! ### The `config` command (`dailybot_cli/commands/config.py`) -/

/-- `KNOWN_SETTINGS`: user-facing setting name to stored key. -/
def KNOWN_SETTINGS : List (String × String) := [("key", "api_key")]

/-- Split a character list at the first `=`, returning the (reversed
accumulator fixed) prefix and the untouched remainder. -/
def splitOnceAux : List Char → List Char → Option (List Char × List Char)
  | [], _ => none
  | c :: rest, acc =>
      if c = '=' then some (acc.reverse, rest) else splitOnceAux rest (c :: acc)

/-- `setting.split("=", 1)` when an `=` is present, else the bare name with
no value. -/
def splitSetting (setting : String) : String × Option String :=
  match splitOnceAux setting.toList [] with
  | some (n, v) => (String.mk n, some (String.mk v))
  | none => (setting, none)

/-- Observable outcome of the `config` command. -/
inductive ConfigCmdResult where
  | exitError
  | showValue (current : Option JVal)
  | wrote
deriving Repr

/-- The `config` command: `key` shows the stored value, `key=` writes a
`None` (removal) through `save_config`, `key=value` writes the value;
unknown names exit with an error. Returns the outcome and the resulting
persisted mapping. -/
def config_cmd (setting : String) (existing : List (String × JVal)) :
    ConfigCmdResult × List (String × JVal) :=
  let nv := splitSetting setting
  match (KNOWN_SETTINGS.find? (fun p => p.1 == nv.1)).map (fun p => p.2) with
  | none => (.exitError, existing)
  | some config_key =>
    match nv.2 with
    | none => (.showValue (lookup existing config_key), existing)
    | some v =>
        if v = "" then (.wrote, save_config [(config_key, .jnull)] existing)
        else (.wrote, save_config [(config_key, .jstr v)] existing)

/-! ### The `logout` command (`dailybot_cli/commands/auth.py`) -/

/-- Transport outcome of the revoke POST: a response, or a raised
`httpx.TimeoutException`. -/
inductive NetOutcome where
  | resp (r : HResponse)
  | timeoutRaised
deriving Repr

/-- Observable outcome of the `logout` command. -/
inductive LogoutOutcome where
  | notLoggedIn
  | loggedOut
  | uncaught (exnClass : String)
deriving Repr

/-- The `logout` command: return early when no token resolves; otherwise
build a client and POST the revoke. Only `APIError` is caught
(best-effort revoke); a transport timeout or a decode error propagates
before `clear_credentials()` runs. -/
def logout_cmd (cfg : ConfigState) (net : NetOutcome) :
    LogoutOutcome × ConfigState :=
  match get_token cfg with
  | .raises e => (.uncaught e, cfg)
  | .ok tok =>
    if !optTruthy tok then (.notLoggedIn, cfg)
    else
      match DailyBotClient.init cfg none none none 30 with
      | .raises e => (.uncaught e, cfg)
      | .ok client =>
        match net with
        | .timeoutRaised => (.uncaught "httpx.TimeoutException", cfg)
        | .resp r =>
          match client._handle_response r with
          | .jsonDecodeError _ => (.uncaught "json.JSONDecodeError", cfg)
          | _ => (.loggedOut, clear_credentials cfg)

/-- Does a header list contain the given header name? -/
def hasHeader (headers : List (String × String)) (k : String) : Bool :=
  headers.any (fun p => p.1 == k)

/-! ### Helper lemmas -/

/-- Dropping a prefix of matching elements twice is the same as doing it once. -/
theorem dropWhile_self_idem {α : Type} (p : α → Bool) (l : List α) :
    (l.dropWhile p).dropWhile p = l.dropWhile p := by
  induction l with
  | nil => rfl
  | cons a l ih =>
    by_cases h : p a
    · simp [List.dropWhile_cons, h, ih]
    · simp [List.dropWhile_cons, h]

/-- Stripping trailing slashes is idempotent. -/
theorem rstripSlash_idem (s : String) : rstripSlash (rstripSlash s) = rstripSlash s := by
  simp [rstripSlash, String.toList, dropWhile_self_idem]

/-- A credentials record returned by `load_credentials` is a truthy
(nonempty) mapping. -/
theorem pyTruthy_of_load_credentials (f : FileData) (creds : JVal)
    (h : load_credentials f = .ok (some creds)) : pyTruthy creds = true := by
  cases f with
  | missing => cases h
  | unparseable => cases h
  | parsed v =>
    cases v with
    | jobj fields =>
      cases hd : dictGet fields "token" with
      | none => simp only [load_credentials, hd] at h; cases h
      | some tv =>
        simp only [load_credentials, hd] at h
        by_cases ht : pyTruthy tv = true
        · rw [if_pos ht] at h
          cases h with
          | refl =>
            cases fields with
            | nil => cases hd
            | cons p rest => rfl
        · rw [if_neg ht] at h; cases h
    | jnull => cases h
    | jbool b => cases h
    | jnum n => cases h
    | jstr s => cases h
    | jarr elems => cases h

/-- A successful result of `get_api_url` while the runtime override is not
truthy has no trailing slash. -/
theorem get_api_url_stripped (cfg : ConfigState) (s : String)
    (hov : strTruthy cfg.apiUrlOverride = false)
    (h : get_api_url cfg = .ok s) : rstripSlash s = s := by
  rw [get_api_url, hov] at h
  simp only [Bool.false_eq_true, if_false] at h
  by_cases henv : strTruthy cfg.envApiUrl = true
  · rw [if_pos henv] at h
    cases h with
    | refl => exact rstripSlash_idem _
  · rw [if_neg henv] at h
    cases hload : load_credentials cfg.credentialsFile with
    | raises e => rw [hload] at h; cases h
    | ok creds? =>
      cases creds? with
      | none =>
        simp only [hload] at h
        cases h with
        | refl => rfl
      | some creds =>
        simp only [hload] at h
        cases hu : jget creds "api_url" with
        | none =>
          simp only [hu] at h
          cases h with
          | refl => rfl
        | some u =>
          simp only [hu] at h
          by_cases htr : (pyTruthy creds && pyTruthy u) = true
          · rw [if_pos htr] at h
            cases h with
            | refl => exact rstripSlash_idem _
          · rw [if_neg htr] at h
            cases h with
            | refl => rfl

/-- Popping a key removes its binding. -/
theorem lookup_dictPop_self (m : List (String × JVal)) (k : String) :
    lookup (dictPop m k) k = none := by
  induction m with
  | nil => rfl
  | cons p m ih =>
    by_cases h : p.1 = k
    · have h1 : (p.1 != k) = false := by simp [h]
      simp only [dictPop, List.filter_cons, h1, Bool.false_eq_true, if_false]
      exact ih
    · have h1 : (p.1 != k) = true := by simp [h]
      have h2 : (p.1 == k) = false := by simp [h]
      simp [dictPop, lookup, List.filter_cons, h1, List.find?_cons, h2]

/-- Popping a key leaves other keys untouched. -/
theorem lookup_dictPop_ne (m : List (String × JVal)) (k k' : String)
    (h : k' ≠ k) : lookup (dictPop m k) k' = lookup m k' := by
  induction m with
  | nil => rfl
  | cons p m ih =>
    by_cases hp : p.1 = k
    · have h1 : (p.1 != k) = false := by simp [hp]
      have h2 : (p.1 == k') = false := by
        simp only [beq_eq_false_iff_ne, hp]
        exact Ne.symm h
      simpa [dictPop, lookup, List.filter_cons, h1, List.find?_cons, h2] using ih
    · have h1 : (p.1 != k) = true := by simp [hp]
      by_cases hq : p.1 = k'
      · have h2 : (p.1 == k') = true := by simp [hq]
        simp [dictPop, lookup, List.filter_cons, h1, List.find?_cons, h2]
      · have h2 : (p.1 == k') = false := by simp [hq]
        simpa [dictPop, lookup, List.filter_cons, h1, List.find?_cons, h2] using ih

/-- A mapping whose key list lacks `k` has no binding for `k`. -/
theorem lookup_eq_none_of_not_mem (m : List (String × JVal)) (k : String)
    (h : k ∉ m.map Prod.fst) : lookup m k = none := by
  induction m with
  | nil => rfl
  | cons p m ih =>
    have h1 : (p.1 == k) = false := by
      simp only [beq_eq_false_iff_ne]
      exact fun e => h (by simp [e])
    have h2 : k ∉ m.map Prod.fst := fun e => h (by simp [e])
    simpa [lookup, List.find?_cons, h1] using ih h2

/-- Setting a key binds it to the new value. -/
theorem lookup_dictSet_self (m : List (String × JVal)) (k : String) (v : JVal) :
    lookup (dictSet m k v) k = some v := by
  induction m with
  | nil => simp [dictSet, lookup, List.find?_cons]
  | cons p m ih =>
    by_cases hp : (p.1 == k) = true
    · simp [dictSet, lookup, List.find?_cons, hp]
    · simpa [dictSet, lookup, List.find?_cons, hp] using ih

/-- Setting a key leaves other keys untouched. -/
theorem lookup_dictSet_ne (m : List (String × JVal)) (k k' : String) (v : JVal)
    (h : k' ≠ k) : lookup (dictSet m k v) k' = lookup m k' := by
  have hkk : (k == k') = false := by
    simp only [beq_eq_false_iff_ne]
    exact Ne.symm h
  induction m with
  | nil => simp [dictSet, lookup, List.find?_cons, hkk]
  | cons p m ih =>
    by_cases hp : (p.1 == k) = true
    · have hp' : (p.1 == k') = false := by
        have e : p.1 = k := by simpa using hp
        simp only [beq_eq_false_iff_ne, e]
        exact Ne.symm h
      simp [dictSet, lookup, List.find?_cons, hp, hp', hkk]
    · by_cases hq : (p.1 == k') = true
      · simp [dictSet, lookup, List.find?_cons, hp, hq]
      · simpa [dictSet, lookup, List.find?_cons, hp, hq] using ih

/-- Unfolding one merge step of `save_config` for a `None` value (removal). -/
theorem save_config_cons_null (k0 : String) (data existing : List (String × JVal)) :
    save_config ((k0, JVal.jnull) :: data) existing =
      save_config data (dictPop existing k0) := rfl

/-- Unfolding one merge step of `save_config` for a non-`None` value (set). -/
theorem save_config_cons_val (k0 : String) (v0 : JVal)
    (data existing : List (String × JVal)) (h : v0 ≠ JVal.jnull) :
    save_config ((k0, v0) :: data) existing =
      save_config data (dictSet existing k0 v0) := by
  cases v0 with
  | jnull => exact absurd rfl h
  | jbool b => rfl
  | jnum n => rfl
  | jstr s => rfl
  | jarr elems => rfl
  | jobj fields => rfl

/-- Keys not mentioned in the merged-in data keep their binding. -/
theorem lookup_save_config_not_mem (data : List (String × JVal))
    (existing : List (String × JVal)) (k : String)
    (h : k ∉ data.map Prod.fst) :
    lookup (save_config data existing) k = lookup existing k := by
  induction data generalizing existing with
  | nil => rfl
  | cons kv data ih =>
    obtain ⟨k0, v0⟩ := kv
    have h1 : k ≠ k0 := fun e => h (by simp [e])
    have h2 : k ∉ data.map Prod.fst := fun e => h (by simp [e])
    by_cases hv : v0 = JVal.jnull
    · subst hv
      rw [save_config_cons_null k0 data existing, ih _ h2,
        lookup_dictPop_ne existing k0 k h1]
    · rw [save_config_cons_val k0 v0 data existing hv, ih _ h2,
        lookup_dictSet_ne existing k0 k v0 h1]

/-- The merge equation for `save_config`: for unique input keys, a key
mapped to `None` in the input is absent from the result, a key mapped to
any other value is bound to that value, and a key not mentioned in the
input keeps the binding it had in the existing mapping. -/
theorem lookup_save_config (data existing : List (String × JVal)) (k : String)
    (hnd : (data.map Prod.fst).Nodup) :
    lookup (save_config data existing) k =
      match lookup data k with
      | none => lookup existing k
      | some JVal.jnull => none
      | some v => some v := by
  induction data generalizing existing with
  | nil => rfl
  | cons kv data ih =>
    obtain ⟨k0, v0⟩ := kv
    simp only [List.map_cons, List.nodup_cons] at hnd
    obtain ⟨hnotmem, hnd'⟩ := hnd
    by_cases hk : k0 = k
    · subst hk
      have hdata0 : lookup data k0 = none :=
        lookup_eq_none_of_not_mem data k0 hnotmem
      have hlk : lookup ((k0, v0) :: data) k0 = some v0 := by
        simp [lookup, List.find?_cons]
      by_cases hv : v0 = JVal.jnull
      · subst hv
        rw [save_config_cons_null k0 data existing,
          lookup_save_config_not_mem data _ k0 hnotmem,
          lookup_dictPop_self existing k0, hlk]
      · rw [save_config_cons_val k0 v0 data existing hv,
          lookup_save_config_not_mem data _ k0 hnotmem,
          lookup_dictSet_self existing k0 v0, hlk]
        cases v0 with
        | jnull => exact absurd rfl hv
        | jbool b => rfl
        | jnum n => rfl
        | jstr s => rfl
        | jarr elems => rfl
        | jobj fields => rfl
    · have hbk : (k0 == k) = false := by simp [hk]
      have hlk : lookup ((k0, v0) :: data) k = lookup data k := by
        simp [lookup, List.find?_cons, hbk]
      by_cases hv : v0 = JVal.jnull
      · subst hv
        rw [save_config_cons_null k0 data existing, ih _ hnd', hlk,
          lookup_dictPop_ne existing k0 k (fun e => hk e.symm)]
      · rw [save_config_cons_val k0 v0 data existing hv, ih _ hnd', hlk,
          lookup_dictSet_ne existing k0 k v0 (fun e => hk e.symm)]

/-- A client built by `DailyBotClient.init` starts with no recorded agent
auth mode. -/
theorem init_agent_auth_mode (cfg : ConfigState)
    (api_url token api_key : Option String) (timeout : ℚ) (c : DailyBotClient)
    (h : DailyBotClient.init cfg api_url token api_key timeout = .ok c) :
    c._agent_auth_mode = none := by
  unfold DailyBotClient.init at h
  cases hu : (if strTruthy api_url then .ok (api_url.getD "") else get_api_url cfg :
      PyResult String) with
  | raises e => rw [hu] at h; cases h
  | ok u =>
    rw [hu] at h
    cases ht : (if strTruthy token then .ok (token.map .jstr) else get_token cfg :
        PyResult (Option JVal)) with
    | raises e => rw [ht] at h; cases h
    | ok tok =>
      rw [ht] at h
      cases hk : (if strTruthy api_key then .ok (api_key.map .jstr) else get_api_key cfg :
          PyResult (Option JVal)) with
      | raises e => rw [hk] at h; cases h
      | ok key =>
        rw [hk] at h
        cases h with
        | refl => rfl

/-! ### Concrete instances used by witnesses and counterexamples -/

/-- A client holding both an API key and a session token. -/
def clientKT : DailyBotClient :=
  { api_url := "http://test.example", token := some (.jstr "tok"),
    api_key := some (.jstr "key123"), timeout := 30, _agent_auth_mode := none }

/-- A client holding only a session token. -/
def clientT : DailyBotClient :=
  { api_url := "http://test.example", token := some (.jstr "tok"),
    api_key := none, timeout := 30, _agent_auth_mode := none }

/-- A client with no credentials at all. -/
def clientNone : DailyBotClient :=
  { api_url := "http://test.example", token := none,
    api_key := none, timeout := 30, _agent_auth_mode := none }

/-- A client whose most recent agent-scoped call used the bearer fallback. -/
def clientBearerMode : DailyBotClient :=
  { clientT with _agent_auth_mode := some "bearer" }

/-- A client whose most recent agent-scoped call used the API key. -/
def clientApiKeyMode : DailyBotClient :=
  { clientKT with _agent_auth_mode := some "api_key" }

/-- A 401 response whose body carries a server-sent detail message. -/
def r401 : HResponse := ⟨401, some (.jobj [("detail", .jstr "Unauthorized")]), ""⟩

/-- A 204 response with an empty, unparseable body. -/
def r204 : HResponse := ⟨204, none, ""⟩

/-- A configuration state with a logged-in user and no other sources. -/
def cfgLoggedIn : ConfigState :=
  { apiUrlOverride := none, envApiUrl := none, envToken := none, envApiKey := none,
    credentialsFile := .parsed (.jobj
      [("token", .jstr "tok123"), ("api_url", .jstr "https://api.dailybot.com")]),
    configFile := .missing }

/-- A configuration state with the override, the environment variable and a
persisted base URL all set at once. -/
def cfgAllUrls : ConfigState :=
  { apiUrlOverride := some "http://override.example",
    envApiUrl := some "http://env.example", envToken := none, envApiKey := none,
    credentialsFile := .parsed (.jobj
      [("token", .jstr "t"), ("api_url", .jstr "http://disk.example")]),
    configFile := .missing }

/-! ### Claims -/

/-- Claim C1: on a 401/403 response, a recorded agent auth mode of
`bearer` replaces the detail with the fixed re-authentication instruction,
while a recorded mode of `api_key` (or an unset mode) passes the detail
resolved from the server response through unchanged. -/
theorem C1_bearer_override (c : DailyBotClient) (r : HResponse)
    (h : r.status_code = 401 ∨ r.status_code = 403) :
    (c._agent_auth_mode = some "bearer" →
      c._handle_response r = .apiError r.status_code (.jstr SESSION_EXPIRED_MSG)) ∧
    (c._agent_auth_mode = some "api_key" ∨ c._agent_auth_mode = none →
      c._handle_response r = .apiError r.status_code (errorDetail r)) := by
  have h400 : r.status_code ≥ 400 := by omega
  constructor
  · intro hm
    rw [DailyBotClient._handle_response, if_pos h400, if_pos ⟨h, hm⟩]
  · intro hm
    have hne : ¬ ((r.status_code = 401 ∨ r.status_code = 403)
        ∧ c._agent_auth_mode = some "bearer") := by
      rintro ⟨-, hb⟩
      rcases hm with hm | hm <;> rw [hm] at hb <;> simp at hb
    rw [DailyBotClient._handle_response, if_pos h400, if_neg hne]

/-- Witness for C1 at concrete inputs: a bearer-mode client gets the fixed
message, an api-key-mode client gets the server's detail. -/
theorem C1_witness :
    clientBearerMode._handle_response r401
      = .apiError 401 (.jstr SESSION_EXPIRED_MSG) ∧
    clientApiKeyMode._handle_response r401
      = .apiError 401 (.jstr "Unauthorized") :=
  ⟨(C1_bearer_override clientBearerMode r401 (Or.inl rfl)).1 rfl,
   (C1_bearer_override clientApiKeyMode r401 (Or.inl rfl)).2 (Or.inl rfl)⟩

/-- Claim C2: agent-header construction emits exactly one credential
header — the API-key header whenever the API key is present (even when a
token is also present), else the bearer header when the token is present,
else neither — and records the matching auth mode on the instance. -/
theorem C2_agent_headers (c : DailyBotClient) :
    (optTruthy c.api_key = true →
      hasHeader (c._agent_headers).1 "X-API-KEY" = true ∧
      hasHeader (c._agent_headers).1 "Authorization" = false ∧
      (c._agent_headers).2._agent_auth_mode = some "api_key") ∧
    (optTruthy c.api_key = false → optTruthy c.token = true →
      hasHeader (c._agent_headers).1 "X-API-KEY" = false ∧
      hasHeader (c._agent_headers).1 "Authorization" = true ∧
      (c._agent_headers).2._agent_auth_mode = some "bearer") ∧
    (optTruthy c.api_key = false → optTruthy c.token = false →
      hasHeader (c._agent_headers).1 "X-API-KEY" = false ∧
      hasHeader (c._agent_headers).1 "Authorization" = false ∧
      (c._agent_headers).2._agent_auth_mode = none) := by
  refine ⟨fun hk => ?_, fun hk ht => ?_, fun hk ht => ?_⟩
  · rw [DailyBotClient._agent_headers, if_pos hk]
    exact ⟨rfl, rfl, rfl⟩
  · rw [DailyBotClient._agent_headers, if_neg (by simp [hk]), if_pos ht]
    exact ⟨rfl, rfl, rfl⟩
  · rw [DailyBotClient._agent_headers, if_neg (by simp [hk]), if_neg (by simp [ht])]
    exact ⟨rfl, rfl, rfl⟩

/-- Witness for C2 at concrete clients: key plus token takes the API-key
branch, token only takes the bearer branch, no credentials takes neither. -/
theorem C2_witness :
    (hasHeader (clientKT._agent_headers).1 "X-API-KEY" = true ∧
     hasHeader (clientKT._agent_headers).1 "Authorization" = false ∧
     (clientKT._agent_headers).2._agent_auth_mode = some "api_key") ∧
    (hasHeader (clientT._agent_headers).1 "Authorization" = true ∧
     (clientT._agent_headers).2._agent_auth_mode = some "bearer") ∧
    (hasHeader (clientNone._agent_headers).1 "X-API-KEY" = false ∧
     (clientNone._agent_headers).2._agent_auth_mode = none) :=
  ⟨(C2_agent_headers clientKT).1 rfl,
   ⟨((C2_agent_headers clientT).2.1 rfl rfl).2.1,
    ((C2_agent_headers clientT).2.1 rfl rfl).2.2⟩,
   ⟨((C2_agent_headers clientNone).2.2 rfl rfl).1,
    ((C2_agent_headers clientNone).2.2 rfl rfl).2.2⟩⟩

/-- Claim C3 counterexample: in `cfgAllUrls` the environment base URL and a
persisted base URL are both present, yet resolution returns the runtime
override — not the environment value — because the override ranks higher. -/
theorem C3_counterexample :
    get_api_url cfgAllUrls = .ok "http://override.example" ∧
    cfgAllUrls.envApiUrl = some "http://env.example" ∧
    jget (.jobj [("token", .jstr "t"), ("api_url", .jstr "http://disk.example")])
      "api_url" = some (.jstr "http://disk.example") ∧
    "http://override.example" ≠ "http://env.example" :=
  ⟨rfl, rfl, rfl, by decide⟩

/-- Claim C3 (amended): for each of the three resolved values, a present
environment variable beats the persisted value: resolution returns the
environment value (for the base URL this holds when the runtime override
is unset, and the returned value has trailing slashes stripped). -/
theorem C3_env_over_persisted :
    (∀ cfg u, strTruthy cfg.apiUrlOverride = false → cfg.envApiUrl = some u →
       u ≠ "" → get_api_url cfg = .ok (rstripSlash u)) ∧
    (∀ cfg t, cfg.envToken = some t → t ≠ "" →
       get_token cfg = .ok (some (.jstr t))) ∧
    (∀ cfg k, cfg.envApiKey = some k → k ≠ "" →
       get_api_key cfg = .ok (some (.jstr k))) := by
  refine ⟨fun cfg u hov henv hu => ?_, fun cfg t henv ht => ?_,
    fun cfg k henv hk => ?_⟩
  · have h1 : strTruthy cfg.envApiUrl = true := by
      rw [henv]; simpa [strTruthy] using hu
    rw [get_api_url, if_neg (by simp [hov]), if_pos h1, henv]
    rfl
  · have h1 : strTruthy cfg.envToken = true := by
      rw [henv]; simpa [strTruthy] using ht
    rw [get_token, if_pos h1, henv]
    rfl
  · have h1 : strTruthy cfg.envApiKey = true := by
      rw [henv]; simpa [strTruthy] using hk
    rw [get_api_key, if_pos h1, henv]
    rfl

/-- A configuration state where every source is populated: environment and
persisted values for all three resolved values, no runtime override. -/
def cfgEnvAll : ConfigState :=
  { apiUrlOverride := none, envApiUrl := some "http://env.example/",
    envToken := some "envtok", envApiKey := some "envkey",
    credentialsFile := .parsed (.jobj
      [("token", .jstr "disktok"), ("api_url", .jstr "http://disk.example")]),
    configFile := .parsed (.jobj [("api_key", .jstr "diskkey")]) }

/-- Witness for the amended C3 at a concrete state where both environment
and persisted sources are present for all three values. -/
theorem C3_witness :
    get_api_url cfgEnvAll = .ok "http://env.example" ∧
    get_token cfgEnvAll = .ok (some (.jstr "envtok")) ∧
    get_api_key cfgEnvAll = .ok (some (.jstr "envkey")) :=
  ⟨C3_env_over_persisted.1 cfgEnvAll "http://env.example/" rfl rfl (by decide),
   C3_env_over_persisted.2.1 cfgEnvAll "envtok" rfl (by decide),
   C3_env_over_persisted.2.2 cfgEnvAll "envkey" rfl (by decide)⟩

/-- Claim C4: the base URL resolution chain. A runtime override set to a
value that is nonempty after stripping wins unconditionally; else a
present environment variable; else a present truthy persisted
`api_url`; else the hardcoded default; and the value returned at every
stage carries no trailing slash. -/
theorem C4_base_url_chain :
    (∀ cfg url, rstripSlash url ≠ "" →
       get_api_url (set_api_url_override cfg url) = .ok (rstripSlash url)) ∧
    (∀ cfg u, strTruthy cfg.apiUrlOverride = false → cfg.envApiUrl = some u →
       u ≠ "" → get_api_url cfg = .ok (rstripSlash u)) ∧
    (∀ cfg creds u, strTruthy cfg.apiUrlOverride = false →
       strTruthy cfg.envApiUrl = false →
       load_credentials cfg.credentialsFile = .ok (some creds) →
       jget creds "api_url" = some u → pyTruthy u = true →
       get_api_url cfg = .ok (rstripSlash (pyStrTop u))) ∧
    (∀ cfg, strTruthy cfg.apiUrlOverride = false →
       strTruthy cfg.envApiUrl = false →
       load_credentials cfg.credentialsFile = .ok none →
       get_api_url cfg = .ok DEFAULT_API_URL) ∧
    (∀ cfg creds, strTruthy cfg.apiUrlOverride = false →
       strTruthy cfg.envApiUrl = false →
       load_credentials cfg.credentialsFile = .ok (some creds) →
       jget creds "api_url" = none →
       get_api_url cfg = .ok DEFAULT_API_URL) ∧
    (∀ cfg s, strTruthy cfg.apiUrlOverride = false →
       get_api_url cfg = .ok s → rstripSlash s = s) ∧
    (∀ cfg url s, get_api_url (set_api_url_override cfg url) = .ok s →
       rstripSlash s = s) := by
  refine ⟨fun cfg url h => ?_, fun cfg u hov henv hu => ?_,
    fun cfg creds u hov henv hload hu htr => ?_,
    fun cfg hov henv hload => ?_,
    fun cfg creds hov henv hload hu => ?_,
    fun cfg s hov h => get_api_url_stripped cfg s hov h,
    fun cfg url s h => ?_⟩
  · have h1 : strTruthy (set_api_url_override cfg url).apiUrlOverride = true := by
      simp [set_api_url_override, strTruthy, h]
    rw [get_api_url, if_pos h1]
    rfl
  · have h1 : strTruthy cfg.envApiUrl = true := by
      rw [henv]; simpa [strTruthy] using hu
    rw [get_api_url, if_neg (by simp [hov]), if_pos h1, henv]
    rfl
  · have hc : pyTruthy creds = true := pyTruthy_of_load_credentials _ _ hload
    rw [get_api_url, if_neg (by simp [hov]), if_neg (by simp [henv])]
    simp [hload, hu, hc, htr]
  · rw [get_api_url, if_neg (by simp [hov]), if_neg (by simp [henv])]
    simp [hload]
  · rw [get_api_url, if_neg (by simp [hov]), if_neg (by simp [henv])]
    simp [hload, hu]
  · by_cases hov : strTruthy (set_api_url_override cfg url).apiUrlOverride = true
    · rw [get_api_url, if_pos hov] at h
      cases h with
      | refl => simpa [set_api_url_override] using rstripSlash_idem url
    · exact get_api_url_stripped _ s (by simpa using hov) h

/-- Witness for C4 at concrete states: a stripped override wins over a
populated environment plus persisted state, and without override or
environment the persisted truthy `api_url` is used, stripped. -/
theorem C4_witness :
    get_api_url (set_api_url_override cfgAllUrls "http://flag.example/")
      = .ok "http://flag.example" ∧
    get_api_url cfgLoggedIn = .ok "https://api.dailybot.com" :=
  ⟨C4_base_url_chain.1 cfgAllUrls "http://flag.example/" (by decide),
   C4_base_url_chain.2.2.1 cfgLoggedIn
     (.jobj [("token", .jstr "tok123"), ("api_url", .jstr "https://api.dailybot.com")])
     (.jstr "https://api.dailybot.com") rfl rfl rfl rfl rfl⟩

/-- Claim C5 (code evaluation at the failing input): with a logged-in
state, a revoke call failing with an API error still ends with the
credentials file deleted, but a revoke call that raises a transport
timeout propagates the exception and leaves the credentials file on disk —
only `APIError` is caught before `clear_credentials()`. -/
theorem C5_logout_timeout_keeps_credentials :
    (logout_cmd cfgLoggedIn
        (.resp ⟨500, some (.jobj [("detail", .jstr "boom")]), ""⟩)).1
      = .loggedOut ∧
    (logout_cmd cfgLoggedIn
        (.resp ⟨500, some (.jobj [("detail", .jstr "boom")]), ""⟩)).2.credentialsFile
      = .missing ∧
    (logout_cmd cfgLoggedIn .timeoutRaised).1
      = .uncaught "httpx.TimeoutException" ∧
    (logout_cmd cfgLoggedIn .timeoutRaised).2.credentialsFile
      = cfgLoggedIn.credentialsFile ∧
    cfgLoggedIn.credentialsFile ≠ .missing :=
  ⟨rfl, rfl, rfl, rfl, fun h => FileData.noConfusion h⟩

/-- Claim C6 counterexample: a 204 response with an empty unparseable body
yields the explicit empty result through `_handle_response`, but the
`get_agent_messages` operation parses the body of every success status and
raises a decode error on the same input — classification is not applied
uniformly across operations. -/
theorem C6_counterexample :
    clientNone._handle_response r204 = .ok (.jobj []) ∧
    clientNone.get_agent_messages_response r204 = .jsonDecodeError 204 ∧
    HandleResult.jsonDecodeError 204 ≠ .ok (.jobj []) :=
  ⟨rfl, rfl, fun h => HandleResult.noConfusion h⟩

/-- Claim C6 (amended): `_handle_response` — used by every operation except
`get_agent_messages` — yields an explicit empty result on 204 without
parsing and parses the body on any other success status, while
`get_agent_messages` parses the body of every success response directly,
a 204 included. -/
theorem C6_response_classification (c : DailyBotClient) (r : HResponse) :
    (r.status_code = 204 → c._handle_response r = .ok (.jobj [])) ∧
    (r.status_code < 400 → r.status_code ≠ 204 →
       c._handle_response r =
         match r.jsonBody with
         | some v => .ok v
         | none => .jsonDecodeError r.status_code) ∧
    (r.status_code < 400 →
       c.get_agent_messages_response r =
         match r.jsonBody with
         | some v => .ok v
         | none => .jsonDecodeError r.status_code) := by
  refine ⟨fun h204 => ?_, fun hlt hne => ?_, fun hlt => ?_⟩
  · have h1 : ¬ r.status_code ≥ 400 := by omega
    rw [DailyBotClient._handle_response, if_neg h1, if_pos h204]
  · have h1 : ¬ r.status_code ≥ 400 := by omega
    rw [DailyBotClient._handle_response, if_neg h1, if_neg hne]
  · have h1 : ¬ r.status_code ≥ 400 := by omega
    rw [DailyBotClient.get_agent_messages_response, if_neg h1]

/-- Witness for the amended C6: a parseable 204 body is ignored, a 200
body is parsed, and `get_agent_messages` parses a 200 list body. -/
theorem C6_witness :
    clientT._handle_response ⟨204, some (.jobj [("x", .jnum 1)]), ""⟩
      = .ok (.jobj []) ∧
    clientT._handle_response ⟨200, some (.jobj [("count", .jnum 2)]), ""⟩
      = .ok (.jobj [("count", .jnum 2)]) ∧
    clientT.get_agent_messages_response ⟨200, some (.jarr []), ""⟩
      = .ok (.jarr []) :=
  ⟨(C6_response_classification clientT ⟨204, some (.jobj [("x", .jnum 1)]), ""⟩).1 rfl,
   (C6_response_classification clientT
      ⟨200, some (.jobj [("count", .jnum 2)]), ""⟩).2.1 (by decide) (by decide),
   (C6_response_classification clientT ⟨200, some (.jarr []), ""⟩).2.2 (by decide)⟩

/-- Claim C7 counterexample: a 401 response whose body carries a `detail`
field is reported with the fixed re-authentication message instead of the
chain's result when the recorded auth mode is `bearer`, so the chain is
not what resolves the detail for every response with status at least 400. -/
theorem C7_counterexample :
    clientBearerMode._handle_response r401
      = .apiError 401 (.jstr SESSION_EXPIRED_MSG) ∧
    errorDetail r401 = .jstr "Unauthorized" ∧
    JVal.jstr SESSION_EXPIRED_MSG ≠ JVal.jstr "Unauthorized" := by
  refine ⟨rfl, rfl, ?_⟩
  intro h
  injection h with h2
  exact absurd h2 (by decide)

/-- Claim C7 (amended): every response with status at least 400 raises an
error carrying its numeric status code; outside the 401/403-bearer special
case the detail is the chain's result: the body's `detail` field, else its
`error` field, else the stringified body for a parsed mapping; the raw
response text when the body is not a parsed mapping; and the generic
HTTP-code string when that text is empty. -/
theorem C7_error_detail_chain (c : DailyBotClient) (r : HResponse)
    (h4 : r.status_code ≥ 400) :
    (∃ d, c._handle_response r = .apiError r.status_code d) ∧
    (¬ ((r.status_code = 401 ∨ r.status_code = 403)
        ∧ c._agent_auth_mode = some "bearer") →
      c._handle_response r = .apiError r.status_code (errorDetail r)) ∧
    (∀ fields, r.jsonBody = some (.jobj fields) →
      (∀ d, dictGet fields "detail" = some d → errorDetail r = d) ∧
      (dictGet fields "detail" = none →
        ∀ e, dictGet fields "error" = some e → errorDetail r = e) ∧
      (dictGet fields "detail" = none → dictGet fields "error" = none →
        errorDetail r = .jstr (pyRepr (.jobj fields)))) ∧
    ((∀ fields, r.jsonBody ≠ some (.jobj fields)) → r.text ≠ "" →
      errorDetail r = .jstr r.text) ∧
    ((∀ fields, r.jsonBody ≠ some (.jobj fields)) → r.text = "" →
      errorDetail r = .jstr ("HTTP " ++ toString r.status_code)) := by
  refine ⟨?_, fun hnb => ?_,
    fun fields hb => ⟨fun d hd => ?_, fun hd e he => ?_, fun hd he => ?_⟩,
    fun hnotobj htext => ?_, fun hnotobj htext => ?_⟩
  · rw [DailyBotClient._handle_response, if_pos h4]
    by_cases hb : (r.status_code = 401 ∨ r.status_code = 403)
        ∧ c._agent_auth_mode = some "bearer"
    · rw [if_pos hb]; exact ⟨_, rfl⟩
    · rw [if_neg hb]; exact ⟨_, rfl⟩
  · rw [DailyBotClient._handle_response, if_pos h4, if_neg hnb]
  · simp [errorDetail, hb, hd]
  · simp [errorDetail, hb, hd, he]
  · simp [errorDetail, hb, hd, he]
  · cases hjb : r.jsonBody with
    | none => simp [errorDetail, hjb, htext]
    | some v =>
      cases v with
      | jobj fields => exact absurd hjb (hnotobj fields)
      | jnull => simp [errorDetail, hjb, htext]
      | jbool b => simp [errorDetail, hjb, htext]
      | jnum n => simp [errorDetail, hjb, htext]
      | jstr s => simp [errorDetail, hjb, htext]
      | jarr elems => simp [errorDetail, hjb, htext]
  · cases hjb : r.jsonBody with
    | none => simp [errorDetail, hjb, htext]
    | some v =>
      cases v with
      | jobj fields => exact absurd hjb (hnotobj fields)
      | jnull => simp [errorDetail, hjb, htext]
      | jbool b => simp [errorDetail, hjb, htext]
      | jnum n => simp [errorDetail, hjb, htext]
      | jstr s => simp [errorDetail, hjb, htext]
      | jarr elems => simp [errorDetail, hjb, htext]

/-- Witness for the amended C7: the chain at a non-bearer client for an
unparseable empty body falls to the generic string, and a body with only
an `error` field resolves to that field. -/
theorem C7_witness :
    clientApiKeyMode._handle_response ⟨500, none, ""⟩
      = .apiError 500 (.jstr "HTTP 500") ∧
    errorDetail ⟨404, some (.jobj [("error", .jstr "E")]), "zz"⟩ = .jstr "E" :=
  ⟨(C7_error_detail_chain clientApiKeyMode ⟨500, none, ""⟩ (by decide)).2.1
     (by decide),
   ((C7_error_detail_chain clientApiKeyMode
       ⟨404, some (.jobj [("error", .jstr "E")]), "zz"⟩ (by decide)).2.2.1
     [("error", .jstr "E")] rfl).2.1 rfl (.jstr "E") rfl⟩

/-- Claim C8 (code evaluation at the failing input): credentials loading
returns the record only for a mapping with a truthy token, and returns
absent for a missing file, unparseable text and mappings without one —
but parseable non-mapping JSON (an array, or `null`) raises an uncaught
`AttributeError` instead of being treated as absent, since the except
clause catches only `JSONDecodeError` and `KeyError`. -/
theorem C8_load_credentials_shapes :
    load_credentials .missing = .ok none ∧
    load_credentials .unparseable = .ok none ∧
    load_credentials (.parsed (.jobj [("token", .jstr "")])) = .ok none ∧
    load_credentials (.parsed (.jobj [("email", .jstr "e")])) = .ok none ∧
    load_credentials (.parsed (.jobj [("token", .jstr "tok"), ("email", .jstr "e")]))
      = .ok (some (.jobj [("token", .jstr "tok"), ("email", .jstr "e")])) ∧
    load_credentials (.parsed (.jarr [.jnum 1, .jnum 2]))
      = .raises "AttributeError" ∧
    load_credentials (.parsed .jnull) = .raises "AttributeError" :=
  ⟨rfl, rfl, rfl, rfl, rfl, rfl, rfl⟩

/-- Claim C9: a settings write merges: for unique input keys, every
existing key not mentioned in the input keeps its value, input keys set to
the absent value (Python `None`) are removed, and every other input key is
bound to its new value — and the config command's empty write is exactly
such a removal merge, its nonempty write a set merge, so the persisted
mapping is never wholesale-replaced by the input alone. -/
theorem C9_save_config_merge :
    (∀ data existing k, (data.map Prod.fst).Nodup →
       lookup (save_config data existing) k =
         match lookup data k with
         | none => lookup existing k
         | some JVal.jnull => none
         | some v => some v) ∧
    (∀ existing, config_cmd "key=" existing
       = (.wrote, save_config [("api_key", JVal.jnull)] existing)) ∧
    (∀ existing, config_cmd "key=newvalue" existing
       = (.wrote, save_config [("api_key", JVal.jstr "newvalue")] existing)) :=
  ⟨fun data existing k hnd => lookup_save_config data existing k hnd,
   fun _ => rfl, fun _ => rfl⟩

/-- Witness for C9 at a concrete write: the untouched key survives, the
removed key disappears, the new key appears. -/
theorem C9_witness :
    lookup (save_config [("api_key", JVal.jnull), ("new", JVal.jstr "n")]
        [("api_key", .jstr "old"), ("other", .jstr "v")]) "other"
      = some (.jstr "v") ∧
    lookup (save_config [("api_key", JVal.jnull), ("new", JVal.jstr "n")]
        [("api_key", .jstr "old"), ("other", .jstr "v")]) "api_key" = none ∧
    lookup (save_config [("api_key", JVal.jnull), ("new", JVal.jstr "n")]
        [("api_key", .jstr "old"), ("other", .jstr "v")]) "new"
      = some (.jstr "n") :=
  ⟨C9_save_config_merge.1 [("api_key", JVal.jnull), ("new", JVal.jstr "n")]
     [("api_key", .jstr "old"), ("other", .jstr "v")] "other" (by decide),
   C9_save_config_merge.1 [("api_key", JVal.jnull), ("new", JVal.jstr "n")]
     [("api_key", .jstr "old"), ("other", .jstr "v")] "api_key" (by decide),
   C9_save_config_merge.1 [("api_key", JVal.jnull), ("new", JVal.jstr "n")]
     [("api_key", .jstr "old"), ("other", .jstr "v")] "new" (by decide)⟩

/-- The client a fresh construction resolves from `cfgLoggedIn`. -/
def clientLoggedIn : DailyBotClient :=
  { api_url := "https://api.dailybot.com", token := some (.jstr "tok123"),
    api_key := none, timeout := 30, _agent_auth_mode := none }

/-- Claim C10: the recorded agent auth mode is unset at construction and
written only by agent-header construction — session-authenticated calls
leave it unchanged — so a 401/403 on a session-scoped operation is
classified with whatever the most recent agent-scoped call left behind:
the server detail before any agent call, the fixed re-authentication
message after an agent call that fell back to bearer. -/
theorem C10_auth_mode_lifecycle :
    (∀ (cfg : ConfigState) (api_url token api_key : Option String)
       (timeout : ℚ) (c : DailyBotClient),
       DailyBotClient.init cfg api_url token api_key timeout = .ok c →
       c._agent_auth_mode = none) ∧
    (∀ (c : DailyBotClient) (r : HResponse),
       ((c.sessionCall r).2)._agent_auth_mode = c._agent_auth_mode) ∧
    (∀ (cfg : ConfigState) (api_url token api_key : Option String)
       (timeout : ℚ) (c : DailyBotClient) (r : HResponse),
       DailyBotClient.init cfg api_url token api_key timeout = .ok c →
       (r.status_code = 401 ∨ r.status_code = 403) →
       (c.sessionCall r).1 = .apiError r.status_code (errorDetail r)) ∧
    (∀ (c : DailyBotClient) (r r' : HResponse),
       optTruthy c.api_key = false → optTruthy c.token = true →
       (r'.status_code = 401 ∨ r'.status_code = 403) →
       ((c.agentCall r).2.sessionCall r').1
         = .apiError r'.status_code (.jstr SESSION_EXPIRED_MSG)) := by
  refine ⟨fun cfg a t k ti c h => init_agent_auth_mode cfg a t k ti c h,
    fun c r => rfl, fun cfg a t k ti c r h h4 => ?_, fun c r r' hk ht h4 => ?_⟩
  · have hm : c._agent_auth_mode = none := init_agent_auth_mode cfg a t k ti c h
    have h400 : r.status_code ≥ 400 := by rcases h4 with h' | h' <;> omega
    show c._handle_response r = _
    rw [DailyBotClient._handle_response, if_pos h400,
      if_neg (by rintro ⟨-, hb⟩; rw [hm] at hb; cases hb)]
  · have hmode : ((c.agentCall r).2)._agent_auth_mode = some "bearer" := by
      show ((c._agent_headers).2)._agent_auth_mode = some "bearer"
      rw [DailyBotClient._agent_headers, if_neg (by simp [hk]), if_pos ht]
    have h400 : r'.status_code ≥ 400 := by rcases h4 with h' | h' <;> omega
    show ((c.agentCall r).2)._handle_response r' = _
    rw [DailyBotClient._handle_response, if_pos h400, if_pos ⟨h4, hmode⟩]

/-- Witness for C10: a freshly constructed logged-in client passes the
server detail through on a session-scoped 401; after one agent-scoped call
(which fell back to bearer) the same session-scoped 401 yields the fixed
message. -/
theorem C10_witness :
    clientLoggedIn._agent_auth_mode = none ∧
    (clientLoggedIn.sessionCall r401).1 = .apiError 401 (.jstr "Unauthorized") ∧
    ((clientLoggedIn.agentCall r401).2.sessionCall r401).1
      = .apiError 401 (.jstr SESSION_EXPIRED_MSG) :=
  ⟨C10_auth_mode_lifecycle.1 cfgLoggedIn none none none 30 clientLoggedIn rfl,
   C10_auth_mode_lifecycle.2.2.1 cfgLoggedIn none none none 30 clientLoggedIn
     r401 rfl (Or.inl rfl),
   C10_auth_mode_lifecycle.2.2.2 clientLoggedIn r401 r401 rfl rfl (Or.inl rfl)⟩

end DailyBot
